import Mathlib

/-!
Shallow embedding of `mysensors/sensor.py` (classes `Sensor` and `ChildSensor`)
from the pymysensors repository, together with models of the external
collaborators (`validation.py`, `const.py`, `message.py`) that are described
only at their interface boundary in the specification.

Python dictionaries are embedded as association lists `List (Nat × α)` with
first-occurrence lookup; insertion replaces the first matching key in place and
otherwise appends, which matches `dict` key-update and insertion-order
semantics.  A Python dict value that may be the literal `None` (the desired
state shadow stores `None` to mean "cleared") is embedded as `Option String`,
and `dict.get` is the lookup joined with that option.
-/

namespace PyMySensors

/-- First-occurrence lookup in an association list (`d[k]` / `k in d`). -/
def alookup {α : Type} (m : List (Nat × α)) (k : Nat) : Option α :=
  match m with
  | [] => none
  | p :: rest => if p.1 = k then some p.2 else alookup rest k

/-- Key update: replace the first binding of `k`, else append (`d[k] = v`). -/
def aset {α : Type} (m : List (Nat × α)) (k : Nat) (v : α) : List (Nat × α) :=
  match m with
  | [] => [(k, v)]
  | p :: rest => if p.1 = k then (k, v) :: rest else p :: aset rest k v

/-- A value as stored in a child's `values` dict.  The dict may bind a key to
the literal `None` (written `none`); real payloads are strings. -/
abbrev StoredValue := Option String

/-- `d.get(k)` on a values dict: missing key and stored `None` both give
`none`. -/
def vget (m : List (Nat × StoredValue)) (k : Nat) : Option String :=
  (alookup m k).bind id

/-- Python truthiness of an optional string payload: `None` and `""` are
falsy, any non-empty string is truthy. -/
def otruthy : Option String → Bool
  | none => false
  | some s => !(s = "")

/-- Embeds `ChildSensor.__init__` state: id, type, description, values. -/
structure ChildSensor where
  id : Nat
  type : Nat
  description : String
  values : List (Nat × StoredValue)
deriving Repr, DecidableEq

/-- Embeds `Sensor.__init__` state.  `battery_level`, `heartbeat` and
`protocol_version` are the private backing fields `_battery_level`,
`_heartbeat`, `_protocol_version`; `new_state` is the desired-state shadow
dict; `queue` holds opaque pending outbound messages; `reboot` is the
needs-reboot flag. -/
structure Sensor where
  sensor_id : Nat
  children : List (Nat × ChildSensor)
  type : Option Nat
  sketch_name : Option String
  sketch_version : Option String
  battery_level : Int
  protocol_version : String
  heartbeat : Int
  new_state : List (Nat × ChildSensor)
  queue : List Nat
  reboot : Bool
deriving Repr, DecidableEq

/-- `Sensor(sensor_id)` constructor defaults. -/
def initialSensor (sensor_id : Nat) : Sensor :=
  { sensor_id := sensor_id
    children := []
    type := none
    sketch_name := none
    sketch_version := none
    battery_level := 0
    protocol_version := "1.4"
    heartbeat := 0
    new_state := []
    queue := []
    reboot := false }

/-- `Sensor.is_smart_sleep_node`: `bool(self.new_state)`. -/
def Sensor.is_smart_sleep_node (s : Sensor) : Bool :=
  !s.new_state.isEmpty

/-- `Sensor.add_child_sensor`: returns `None` and leaves the dict alone on a
duplicate id, else inserts a fresh child and returns the id. -/
def Sensor.add_child_sensor (s : Sensor) (child_id child_type : Nat)
    (description : String) : Option Nat × Sensor :=
  match alookup s.children child_id with
  | some _ => (none, s)
  | none =>
      (some child_id,
        { s with children :=
            (aset s.children child_id
              ⟨child_id, child_type, description, []⟩) })

/-- `Sensor.get_desired_value`.  Dict subscripting (`self.children[child_id]`,
`self.new_state[child_id]`) raises `KeyError` on a missing key, embedded as
`Except.error ()`. -/
def Sensor.get_desired_value (s : Sensor) (child_id value_type : Nat) :
    Except Unit (Option String) :=
  match alookup s.children child_id with
  | none => Except.error ()
  | some _ =>
      let shadowRead : Except Unit (Option String) :=
        if s.is_smart_sleep_node then
          match alookup s.new_state child_id with
          | none => Except.error ()
          | some child => Except.ok (vget child.values value_type)
        else Except.ok none
      match shadowRead with
      | Except.error e => Except.error e
      | Except.ok value =>
          if otruthy value then Except.ok value
          else
            match alookup s.children child_id with
            | none => Except.error ()
            | some child => Except.ok (vget child.values value_type)

/-- One step of the `init_smart_sleep_mode` loop body over a single child. -/
def smartSleepStep (ns : List (Nat × ChildSensor)) (child : ChildSensor) :
    List (Nat × ChildSensor) :=
  if (alookup ns child.id).isSome then ns
  else aset ns child.id ⟨child.id, child.type, child.description, []⟩

/-- `Sensor.init_smart_sleep_mode`: for every known child not yet shadowed,
create a shadow child with the same id/type/description and empty values. -/
def Sensor.init_smart_sleep_mode (s : Sensor) : Sensor :=
  { s with new_state :=
      (s.children.foldl (fun ns p => smartSleepStep ns p.2) s.new_state) }

/-- `Sensor.set_child_desired_state`.  The validation gate
`validate_child_state` lives in external collaborators (`const.py`,
`message.py`); its verdict is passed in as the boolean function `vcs`
(modelled from the spec: the gate is a pure function that never mutates the
sensor and reports failure as a boolean). -/
def Sensor.set_child_desired_state (vcs : Nat → Nat → String → Bool)
    (s : Sensor) (child_id value_type : Nat) (value : String) : Sensor :=
  match alookup s.new_state child_id with
  | none => s
  | some child =>
      if vcs child_id value_type value then
        { s with new_state :=
            (aset s.new_state child_id
              { child with values := aset child.values value_type (some value) }) }
      else s

/-- `Sensor.update_child_value`: store the actual value, then clear any shadow
entry for the same child and value type by writing the literal `None`. -/
def Sensor.update_child_value (s : Sensor) (child_id value_type : Nat)
    (value : String) : Except Unit Sensor :=
  match alookup s.children child_id with
  | none => Except.error ()
  | some child =>
      match alookup s.new_state child_id with
      | none =>
          Except.ok { s with children :=
            (aset s.children child_id
              { child with values := aset child.values value_type (some value) }) }
      | some shadow =>
          Except.ok { s with
            children :=
              (aset s.children child_id
                { child with values := aset child.values value_type (some value) })
            new_state :=
              (aset s.new_state child_id
                { shadow with values := aset shadow.values value_type none }) }

/-- Modelled from the spec: `validation.is_battery_level` (module
`validation.py` is not part of the embedded source).  Battery level is an
integer domain-validated to a bounded percentage range; invalid input is
rejected, never silently clamped.  The validator returns the validated value
on success. -/
def is_battery_level (v : Int) : Except Unit Int :=
  if 0 ≤ v ∧ v ≤ 100 then Except.ok v else Except.error ()

/-- Modelled from the spec: `validation.is_heartbeat` — heartbeat is an
integer domain-validated to a non-negative duration; the validator returns the
validated value on success. -/
def is_heartbeat (v : Int) : Except Unit Int :=
  if 0 ≤ v then Except.ok v else Except.error ()

/-- Scanner for dot-separated non-empty digit groups; `seen` records whether
the current group already holds a digit. -/
def version_scan : List Char → Bool → Bool
  | [], seen => seen
  | c :: rest, seen =>
      if c = '.' then seen && version_scan rest false
      else c.isDigit && version_scan rest true

/-- Modelled from the spec: the accepted protocol-version token grammar
(dot-separated non-empty digit groups, accepting the default "1.4"). -/
def version_token_ok (s : String) : Bool :=
  version_scan s.toList false

/-- Modelled from the spec: `validation.safe_is_version` — protocol version is
validated against the accepted version-token grammar. -/
def safe_is_version (s : String) : Except Unit String :=
  if version_token_ok s then Except.ok s else Except.error ()

/-- The `battery_level` property setter: stores the validator's result, or
fails (prior value retained by the caller) when validation rejects. -/
def Sensor.set_battery_level (s : Sensor) (v : Int) : Except Unit Sensor :=
  (is_battery_level v).map (fun w => { s with battery_level := w })

/-- The `heartbeat` property setter. -/
def Sensor.set_heartbeat (s : Sensor) (v : Int) : Except Unit Sensor :=
  (is_heartbeat v).map (fun w => { s with heartbeat := w })

/-- The `protocol_version` property setter. -/
def Sensor.set_protocol_version (s : Sensor) (v : String) : Except Unit Sensor :=
  (safe_is_version v).map (fun w => { s with protocol_version := w })

/-- The persisted record produced by `Sensor.__getstate__`: a copy of
`__dict__` in which the private scalar backing fields are renamed to their
public property names.  Note the transient fields (`new_state`, `queue`,
`reboot`) are part of the record, because `__getstate__` never removes them
from the dict copy. -/
structure SavedState where
  sensor_id : Nat
  children : List (Nat × ChildSensor)
  type : Option Nat
  sketch_name : Option String
  sketch_version : Option String
  new_state : List (Nat × ChildSensor)
  queue : List Nat
  reboot : Bool
  battery_level : Int
  heartbeat : Int
  protocol_version : String
deriving Repr, DecidableEq

/-- `Sensor.__getstate__`. -/
def Sensor.getstate (s : Sensor) : SavedState :=
  { sensor_id := s.sensor_id
    children := s.children
    type := s.type
    sketch_name := s.sketch_name
    sketch_version := s.sketch_version
    new_state := s.new_state
    queue := s.queue
    reboot := s.reboot
    battery_level := s.battery_level
    heartbeat := s.heartbeat
    protocol_version := s.protocol_version }

/-- `Sensor.__setstate__`: every record entry is restored with `setattr`, so
the renamed scalar entries go through the validating property setters; then
`new_state`, `queue` and `reboot` are unconditionally reset. -/
def setstate (st : SavedState) : Except Unit Sensor :=
  match is_battery_level st.battery_level, is_heartbeat st.heartbeat,
      safe_is_version st.protocol_version with
  | Except.ok bl, Except.ok hb, Except.ok pv =>
      Except.ok
        { sensor_id := st.sensor_id
          children := st.children
          type := st.type
          sketch_name := st.sketch_name
          sketch_version := st.sketch_version
          battery_level := bl
          protocol_version := pv
          heartbeat := hb
          new_state := []
          queue := []
          reboot := false }
  | _, _, _ => Except.error ()

/-- Modelled from the spec: the protocol constant table returned by
`get_const(protocol_version)` (module `const.py` is not part of the embedded
source).  It exposes the `S_CUSTOM` presentation type, the list of set/req
value types valid for each sensor type, and each value type's payload
validator. -/
structure ProtocolConst where
  s_custom : Nat
  valid_types : Nat → List Nat
  valid_setreq : Nat → (String → Bool)

/-- The field table `{typ.value: const.VALID_SETREQ[typ] for typ in
const.VALID_TYPES[sensor_type]}`. -/
def typeTable (const : ProtocolConst) (sensor_type : Nat) :
    List (Nat × (String → Bool)) :=
  (const.valid_types sensor_type).map (fun t => (t, const.valid_setreq t))

/-- Replace a binding's value by the extension table's value when the
extension binds the same key. -/
def overrideEntry {α : Type} (ext : List (Nat × α)) (p : Nat × α) : Nat × α :=
  match alookup ext p.1 with
  | some f => (p.1, f)
  | none => p

/-- Modelled from the spec: voluptuous `Schema.extend` — dict-merge of the two
key-validator tables, the extension winning on key collisions. -/
def schemaExtend (base ext : List (Nat × (String → Bool))) :
    List (Nat × (String → Bool)) :=
  base.map (overrideEntry ext)
  ++ ext.filter (fun p => (alookup base p.1).isNone)

/-- `ChildSensor.get_schema`: the generic custom-sensor table extended with
the table for this child's sensor type.  The protocol constant table stands
for the result of `get_const(protocol_version)`. -/
def ChildSensor.get_schema (c : ChildSensor) (const : ProtocolConst) :
    List (Nat × (String → Bool)) :=
  schemaExtend (typeTable const const.s_custom) (typeTable const c.type)

/-- Modelled from the spec: a value map satisfies a voluptuous dict schema
exactly when every entry's key appears in the schema and its payload passes
that key's validator (a stored `None` payload passes no validator). -/
def schemaAccepts (sch : List (Nat × (String → Bool)))
    (values : List (Nat × StoredValue)) : Bool :=
  values.all (fun p =>
    match alookup sch p.1, p.2 with
    | some chk, some payload => chk payload
    | _, _ => false)

/-- `ChildSensor.validate`: validates the supplied value map, defaulting to
the child's current values, against `get_schema`. -/
def ChildSensor.validate (c : ChildSensor) (const : ProtocolConst)
    (values : Option (List (Nat × StoredValue))) : Bool :=
  schemaAccepts (c.get_schema const) (values.getD c.values)

/-- Sensors reachable from the constructor through the public operations,
including a save/load round trip.  The `set_child_desired_state` step
quantifies over the external validation gate's verdict. -/
inductive Reachable : Sensor → Prop where
  | init (sensor_id : Nat) : Reachable (initialSensor sensor_id)
  | add {s : Sensor} (cid ct : Nat) (d : String) :
      Reachable s → Reachable (s.add_child_sensor cid ct d).2
  | smart {s : Sensor} :
      Reachable s → Reachable s.init_smart_sleep_mode
  | set_desired {s : Sensor} (vcs : Nat → Nat → String → Bool)
      (cid vt : Nat) (v : String) :
      Reachable s → Reachable (Sensor.set_child_desired_state vcs s cid vt v)
  | update {s s' : Sensor} (cid vt : Nat) (v : String) :
      Reachable s → s.update_child_value cid vt v = Except.ok s' →
      Reachable s'
  | set_battery {s s' : Sensor} (v : Int) :
      Reachable s → s.set_battery_level v = Except.ok s' → Reachable s'
  | set_heart {s s' : Sensor} (v : Int) :
      Reachable s → s.set_heartbeat v = Except.ok s' → Reachable s'
  | set_version {s s' : Sensor} (v : String) :
      Reachable s → s.set_protocol_version v = Except.ok s' → Reachable s'
  | load {s s' : Sensor} :
      Reachable s → setstate s.getstate = Except.ok s' → Reachable s'

/-- All scalar fields hold values their validators accept. -/
def scalarsValid (s : Sensor) : Prop :=
  (0 ≤ s.battery_level ∧ s.battery_level ≤ 100) ∧ 0 ≤ s.heartbeat ∧
    version_token_ok s.protocol_version = true

/-- Every desired-state shadow key is also a children key. -/
def shadowKeysCovered (s : Sensor) : Bool :=
  s.new_state.all (fun p => (alookup s.children p.1).isSome)

/-- Every child is stored under its own id as key. -/
def childKeysMatch (s : Sensor) : Bool :=
  s.children.all (fun p => p.2.id == p.1)

/-- Fixture: a sensor with a second child, one pending message and a set
reboot flag. -/
def sensorC9 : Sensor := ((initialSensor 1).add_child_sensor 1 2 ("desc")).2

/-- Fixture: validation-gate verdict accepting every non-empty payload. -/
def vcsC5 : Nat → Nat → String → Bool := fun _ _ p => !(p = "")

/-- Fixture: a smart-sleep sensor with one shadowed child. -/
def sensorC5 : Sensor :=
  { initialSensor 4 with
    children := [(1, ⟨1, 2, "", []⟩)]
    new_state := [(1, ⟨1, 2, "", []⟩)] }

/-- Fixture: a reachable smart-sleep sensor with one child. -/
def sensorC7 : Sensor :=
  (((initialSensor 1).add_child_sensor 1 2 ("")).2).init_smart_sleep_mode

/-- Fixture: a smart-sleep sensor with two children but only one shadow
entry (the second child was added after entering smart-sleep mode). -/
def sensorC2 : Sensor :=
  { initialSensor 1 with
    children := [(1, ⟨1, 0, "", []⟩), (2, ⟨2, 0, "", []⟩)]
    new_state := [(1, ⟨1, 0, "", []⟩)] }

/-- Fixture: a smart-sleep sensor whose child 1 has a truthy desired value
and whose child 2 has a falsy (empty-string) desired value. -/
def sensorC3 : Sensor :=
  { initialSensor 2 with
    children :=
      [(1, ⟨1, 0, "", [(0, some ("a"))]⟩), (2, ⟨2, 0, "", [(0, some ("b"))]⟩)]
    new_state :=
      [(1, ⟨1, 0, "", [(0, some ("d"))]⟩), (2, ⟨2, 0, "", [(0, some (""))]⟩)] }

/-- Fixture: a non-smart-sleep sensor with one child. -/
def sensorC3b : Sensor :=
  { initialSensor 3 with children := [(1, ⟨1, 0, "", [(0, some ("c"))]⟩)] }

/-- Fixture: a smart-sleep sensor whose child 1 has a pending desired value
distinct from the value about to arrive. -/
def sensorC4 : Sensor :=
  { initialSensor 5 with
    children := [(1, ⟨1, 0, "", []⟩)]
    new_state := [(1, ⟨1, 0, "", [(0, some ("z"))]⟩)] }

/-- Fixture: a smart-sleep sensor whose only child already has a shadow entry
holding a pending desired value. -/
def sensorC8 : Sensor :=
  { initialSensor 1 with
    children := [(1, ⟨1, 7, "d", []⟩)]
    new_state := [(1, ⟨1, 7, "d", [(0, some ("x"))]⟩)] }

/-- Fixture: a smart-sleep sensor with a shadowed child 1 (carrying a pending
value) and an unshadowed child 2. -/
def sensorC8b : Sensor :=
  { initialSensor 1 with
    children := [(1, ⟨1, 2, "a", []⟩), (2, ⟨2, 3, "b", []⟩)]
    new_state := [(1, ⟨1, 2, "a", [(0, some ("x"))]⟩)] }

/-- Fixture: a sensor with a nonempty desired-state mapping, a pending
outbound message and a set reboot flag. -/
def sensorC1 : Sensor :=
  { initialSensor 1 with
    new_state := [(2, ⟨2, 3, "", []⟩)]
    queue := [7]
    reboot := true }

theorem alookup_aset_self {α : Type} (m : List (Nat × α)) (k : Nat) (v : α) :
    alookup (aset m k v) k = some v := by
  induction m with
  | nil => simp [aset, alookup]
  | cons p rest ih =>
      by_cases h : p.1 = k
      · simp [aset, alookup, h]
      · simp [aset, alookup, h, ih]

theorem alookup_aset_ne {α : Type} (m : List (Nat × α)) (k k' : Nat) (v : α)
    (h : k' ≠ k) : alookup (aset m k v) k' = alookup m k' := by
  have hkk : ¬ k = k' := fun hh => h hh.symm
  induction m with
  | nil => simp [aset, alookup, hkk]
  | cons p rest ih =>
      by_cases hp : p.1 = k
      · simp [aset, alookup, hp, hkk]
      · simp [aset, alookup, hp, ih]

theorem alookup_aset_isSome {α : Type} (m : List (Nat × α)) (k k' : Nat) (v : α)
    (h : (alookup m k').isSome) : (alookup (aset m k v) k').isSome := by
  by_cases hk : k' = k
  · subst hk; simp [alookup_aset_self]
  · rwa [alookup_aset_ne m k k' v hk]

theorem mem_aset_key {α : Type} (m : List (Nat × α)) (k : Nat) (v : α)
    (p : Nat × α) (hp : p ∈ aset m k v) :
    p.1 = k ∨ ∃ q ∈ m, p.1 = q.1 := by
  induction m with
  | nil =>
      simp [aset] at hp
      subst hp; left; rfl
  | cons q rest ih =>
      by_cases hq : q.1 = k
      · simp [aset, hq] at hp
        rcases hp with hp | hp
        · left; rw [hp]
        · right; exact ⟨p, List.mem_cons_of_mem q hp, rfl⟩
      · simp [aset, hq] at hp
        rcases hp with hp | hp
        · right; exact ⟨q, List.mem_cons_self q rest, by rw [hp]⟩
        · rcases ih hp with h | ⟨r, hr, hr1⟩
          · left; exact h
          · right; exact ⟨r, List.mem_cons_of_mem q hr, hr1⟩

theorem alookup_isSome_of_mem {α : Type} (m : List (Nat × α)) (p : Nat × α)
    (hp : p ∈ m) : (alookup m p.1).isSome := by
  induction m with
  | nil => cases hp
  | cons q rest ih =>
      rcases List.mem_cons.mp hp with h | h
      · subst h; simp [alookup]
      · by_cases hq : q.1 = p.1
        · simp [alookup, hq]
        · simp [alookup, hq, ih h]

theorem mem_aset {α : Type} (m : List (Nat × α)) (k : Nat) (v : α)
    (p : Nat × α) (hp : p ∈ aset m k v) : p ∈ m ∨ p = (k, v) := by
  induction m with
  | nil =>
      simp [aset] at hp
      right; exact hp
  | cons q rest ih =>
      by_cases hq : q.1 = k
      · simp [aset, hq] at hp
        rcases hp with hp | hp
        · right; exact hp
        · left; exact List.mem_cons_of_mem q hp
      · simp [aset, hq] at hp
        rcases hp with hp | hp
        · left; rw [hp]; exact List.mem_cons_self q rest
        · rcases ih hp with h | h
          · left; exact List.mem_cons_of_mem q h
          · right; exact h

theorem alookup_eq_some_mem {α : Type} (m : List (Nat × α)) (k : Nat) (v : α)
    (h : alookup m k = some v) : (k, v) ∈ m := by
  induction m with
  | nil => simp [alookup] at h
  | cons q rest ih =>
      by_cases hq : q.1 = k
      · simp [alookup, hq] at h
        have : q = (k, v) := Prod.ext hq h
        rw [← this]; exact List.mem_cons_self q rest
      · simp [alookup, hq] at h
        exact List.mem_cons_of_mem q (ih h)

theorem alookup_ne_nil_of_some {α : Type} (m : List (Nat × α)) (k : Nat)
    (v : α) (h : alookup m k = some v) : m ≠ [] := by
  intro hm
  rw [hm] at h
  simp [alookup] at h

/-- The `init_smart_sleep_mode` loop never changes an existing shadow
binding. -/
theorem smartFold_preserves (l : List (Nat × ChildSensor))
    (ns : List (Nat × ChildSensor)) (k : Nat)
    (h : (alookup ns k).isSome) :
    alookup (l.foldl (fun acc q => smartSleepStep acc q.2) ns) k =
      alookup ns k := by
  induction l generalizing ns with
  | nil => simp
  | cons q rest ih =>
      simp only [List.foldl_cons]
      by_cases hq : (alookup ns q.2.id).isSome
      · rw [smartSleepStep, if_pos hq]
        exact ih ns h
      · rw [smartSleepStep, if_neg hq]
        have hne : k ≠ q.2.id := by
          intro hk
          rw [hk] at h
          exact hq h
        have hstep := alookup_aset_ne ns q.2.id k
          ⟨q.2.id, q.2.type, q.2.description, []⟩ hne
        rw [ih _ (by rw [hstep]; exact h), hstep]

theorem smartFold_isSome (l : List (Nat × ChildSensor))
    (ns : List (Nat × ChildSensor)) (k : Nat)
    (h : (alookup ns k).isSome) :
    (alookup (l.foldl (fun acc q => smartSleepStep acc q.2) ns) k).isSome := by
  rw [smartFold_preserves l ns k h]; exact h

/-- After the loop, every listed child's id has a shadow binding. -/
theorem smartFold_covers (l : List (Nat × ChildSensor))
    (ns : List (Nat × ChildSensor)) (p : Nat × ChildSensor) (hp : p ∈ l) :
    (alookup (l.foldl (fun acc q => smartSleepStep acc q.2) ns)
      p.2.id).isSome := by
  induction l generalizing ns with
  | nil => cases hp
  | cons q rest ih =>
      simp only [List.foldl_cons]
      rcases List.mem_cons.mp hp with h | h
      · subst h
        by_cases hq : (alookup ns p.2.id).isSome
        · rw [smartSleepStep, if_pos hq]
          exact smartFold_isSome rest ns p.2.id hq
        · rw [smartSleepStep, if_neg hq]
          refine smartFold_isSome rest _ p.2.id ?_
          rw [alookup_aset_self]
          rfl
      · apply ih
        exact h

/-- Every binding after the loop is an old binding or keyed by a listed
child's id. -/
theorem smartFold_mem (l : List (Nat × ChildSensor))
    (ns : List (Nat × ChildSensor)) (p : Nat × ChildSensor)
    (hp : p ∈ l.foldl (fun acc q => smartSleepStep acc q.2) ns) :
    (∃ q ∈ ns, p.1 = q.1) ∨ ∃ q ∈ l, p.1 = q.2.id := by
  induction l generalizing ns with
  | nil =>
      left
      exact ⟨p, hp, rfl⟩
  | cons q rest ih =>
      simp only [List.foldl_cons] at hp
      rcases ih _ hp with ⟨r, hr, hr1⟩ | ⟨r, hr, hr1⟩
      · rw [smartSleepStep] at hr
        by_cases hq : (alookup ns q.2.id).isSome
        · rw [if_pos hq] at hr
          left; exact ⟨r, hr, hr1⟩
        · rw [if_neg hq] at hr
          rcases mem_aset _ _ _ _ hr with h | h
          · left; exact ⟨r, h, hr1⟩
          · right
            refine ⟨q, List.mem_cons_self q rest, ?_⟩
            rw [hr1, h]
      · right; exact ⟨r, List.mem_cons_of_mem q hr, hr1⟩

/-- The loop creates a fresh empty shadow for an unshadowed child, provided
children are keyed by their own ids with no duplicate keys. -/
theorem smartFold_fresh (l : List (Nat × ChildSensor))
    (ns : List (Nat × ChildSensor)) (p : Nat × ChildSensor)
    (hl : ∀ q ∈ l, q.2.id = q.1) (hnodup : (l.map Prod.fst).Nodup)
    (hp : p ∈ l) (hns : alookup ns p.2.id = none) :
    alookup (l.foldl (fun acc q => smartSleepStep acc q.2) ns) p.2.id =
      some ⟨p.2.id, p.2.type, p.2.description, []⟩ := by
  induction l generalizing ns with
  | nil => cases hp
  | cons q rest ih =>
      simp only [List.foldl_cons]
      rcases List.mem_cons.mp hp with h | h
      · subst h
        have hq : ¬ (alookup ns p.2.id).isSome := by rw [hns]; simp
        rw [smartSleepStep, if_neg hq]
        refine smartFold_preserves rest _ p.2.id ?_ |>.trans ?_
        · rw [alookup_aset_self]; rfl
        · rw [alookup_aset_self]
      · have hqp : q.1 ≠ p.2.id := by
          have hp1 : p.2.id = p.1 := hl p (List.mem_cons_of_mem q h)
          have hq1 : p.1 ∈ rest.map Prod.fst := List.mem_map_of_mem Prod.fst h
          intro hk
          rw [hp1] at hk
          rw [List.map_cons, List.nodup_cons] at hnodup
          exact hnodup.1 (hk ▸ hq1)
        have hns' : ∀ ns' : List (Nat × ChildSensor),
            alookup ns' p.2.id = none →
            alookup (smartSleepStep ns' q.2) p.2.id = none := by
          intro ns' hns'
          rw [smartSleepStep]
          by_cases hq : (alookup ns' q.2.id).isSome
          · rw [if_pos hq]; exact hns'
          · rw [if_neg hq]
            have : p.2.id ≠ q.2.id := by
              rw [hl q (List.mem_cons_self q rest)]
              exact fun hh => hqp hh.symm
            rw [alookup_aset_ne _ _ _ _ this]
            exact hns'
        apply ih
        · exact fun r hr => hl r (List.mem_cons_of_mem q hr)
        · rw [List.map_cons, List.nodup_cons] at hnodup
          exact hnodup.2
        · exact h
        · exact hns' ns hns

/-- If every listed child already has a shadow, the loop is the identity. -/
theorem smartFold_id (l : List (Nat × ChildSensor))
    (ns : List (Nat × ChildSensor))
    (h : ∀ q ∈ l, (alookup ns q.2.id).isSome) :
    l.foldl (fun acc q => smartSleepStep acc q.2) ns = ns := by
  induction l with
  | nil => simp
  | cons q rest ih =>
      simp only [List.foldl_cons]
      rw [smartSleepStep, if_pos (h q (List.mem_cons_self q rest))]
      exact ih (fun r hr => h r (List.mem_cons_of_mem q hr))

theorem is_battery_level_eq_ok {v w : Int}
    (h : is_battery_level v = Except.ok w) :
    w = v ∧ 0 ≤ v ∧ v ≤ 100 := by
  unfold is_battery_level at h
  split at h
  · exact ⟨(Except.ok.injEq _ _).mp h |>.symm, by assumption⟩
  · cases h

theorem is_heartbeat_eq_ok {v w : Int}
    (h : is_heartbeat v = Except.ok w) : w = v ∧ 0 ≤ v := by
  unfold is_heartbeat at h
  split at h
  · exact ⟨(Except.ok.injEq _ _).mp h |>.symm, by assumption⟩
  · cases h

theorem safe_is_version_eq_ok {v w : String}
    (h : safe_is_version v = Except.ok w) :
    w = v ∧ version_token_ok v = true := by
  unfold safe_is_version at h
  split at h
  · exact ⟨(Except.ok.injEq _ _).mp h |>.symm, by assumption⟩
  · cases h

theorem setstate_eq_ok {st : SavedState} {s' : Sensor}
    (h : setstate st = Except.ok s') :
    s' = { sensor_id := st.sensor_id
           children := st.children
           type := st.type
           sketch_name := st.sketch_name
           sketch_version := st.sketch_version
           battery_level := st.battery_level
           protocol_version := st.protocol_version
           heartbeat := st.heartbeat
           new_state := []
           queue := []
           reboot := false } ∧
      (0 ≤ st.battery_level ∧ st.battery_level ≤ 100) ∧
      0 ≤ st.heartbeat ∧ version_token_ok st.protocol_version = true := by
  unfold setstate at h
  cases hbl : is_battery_level st.battery_level with
  | error e => rw [hbl] at h; cases h
  | ok bl =>
      cases hhb : is_heartbeat st.heartbeat with
      | error e => rw [hbl, hhb] at h; cases h
      | ok hb =>
          cases hpv : safe_is_version st.protocol_version with
          | error e => rw [hbl, hhb, hpv] at h; cases h
          | ok pv =>
              rw [hbl, hhb, hpv] at h
              obtain ⟨hbl1, hbl2⟩ := is_battery_level_eq_ok hbl
              obtain ⟨hhb1, hhb2⟩ := is_heartbeat_eq_ok hhb
              obtain ⟨hpv1, hpv2⟩ := safe_is_version_eq_ok hpv
              refine ⟨?_, hbl2, hhb2, hpv2⟩
              cases h
              rw [hbl1, hhb1, hpv1]

theorem set_battery_level_eq_ok {s s' : Sensor} {v : Int}
    (h : s.set_battery_level v = Except.ok s') :
    s' = { s with battery_level := v } ∧ 0 ≤ v ∧ v ≤ 100 := by
  unfold Sensor.set_battery_level at h
  cases hv : is_battery_level v with
  | error e => rw [hv] at h; cases h
  | ok w =>
      rw [hv] at h
      obtain ⟨hw, hr⟩ := is_battery_level_eq_ok hv
      simp only [Except.map] at h
      cases h
      rw [hw]
      exact ⟨rfl, hr⟩

theorem set_heartbeat_eq_ok {s s' : Sensor} {v : Int}
    (h : s.set_heartbeat v = Except.ok s') :
    s' = { s with heartbeat := v } ∧ 0 ≤ v := by
  unfold Sensor.set_heartbeat at h
  cases hv : is_heartbeat v with
  | error e => rw [hv] at h; cases h
  | ok w =>
      rw [hv] at h
      obtain ⟨hw, hr⟩ := is_heartbeat_eq_ok hv
      simp only [Except.map] at h
      cases h
      rw [hw]
      exact ⟨rfl, hr⟩

theorem set_protocol_version_eq_ok {s s' : Sensor} {v : String}
    (h : s.set_protocol_version v = Except.ok s') :
    s' = { s with protocol_version := v } ∧ version_token_ok v = true := by
  unfold Sensor.set_protocol_version at h
  cases hv : safe_is_version v with
  | error e => rw [hv] at h; cases h
  | ok w =>
      rw [hv] at h
      obtain ⟨hw, hr⟩ := safe_is_version_eq_ok hv
      simp only [Except.map] at h
      cases h
      rw [hw]
      exact ⟨rfl, hr⟩

theorem update_child_value_eq_ok {s s' : Sensor} {cid vt : Nat} {v : String}
    (h : s.update_child_value cid vt v = Except.ok s') :
    ∃ c, alookup s.children cid = some c ∧
      s'.sensor_id = s.sensor_id ∧ s'.type = s.type ∧
      s'.sketch_name = s.sketch_name ∧ s'.sketch_version = s.sketch_version ∧
      s'.battery_level = s.battery_level ∧ s'.heartbeat = s.heartbeat ∧
      s'.protocol_version = s.protocol_version ∧
      s'.queue = s.queue ∧ s'.reboot = s.reboot ∧
      s'.children =
        aset s.children cid { c with values := aset c.values vt (some v) } ∧
      ((alookup s.new_state cid = none ∧ s'.new_state = s.new_state) ∨
       (∃ sc, alookup s.new_state cid = some sc ∧
          s'.new_state =
            aset s.new_state cid
              { sc with values := aset sc.values vt none })) := by
  unfold Sensor.update_child_value at h
  split at h
  · cases h
  · rename_i c hc
    split at h
    · rename_i hn
      cases h
      exact ⟨c, hc, rfl, rfl, rfl, rfl, rfl, rfl, rfl, rfl, rfl, rfl,
        Or.inl ⟨hn, rfl⟩⟩
    · rename_i sc hn
      cases h
      exact ⟨c, hc, rfl, rfl, rfl, rfl, rfl, rfl, rfl, rfl, rfl, rfl,
        Or.inr ⟨sc, hn, rfl⟩⟩

theorem childKeysMatch_iff (s : Sensor) :
    childKeysMatch s = true ↔ ∀ p ∈ s.children, p.2.id = p.1 := by
  simp [childKeysMatch, List.all_eq_true]

theorem shadowKeysCovered_iff (s : Sensor) :
    shadowKeysCovered s = true ↔
      ∀ p ∈ s.new_state, (alookup s.children p.1).isSome := by
  simp [shadowKeysCovered, List.all_eq_true]

theorem reachable_scalarsValid {s : Sensor} (h : Reachable s) :
    scalarsValid s := by
  induction h with
  | init sid => exact ⟨⟨le_refl 0, by norm_num [initialSensor]⟩, le_refl 0, rfl⟩
  | add cid ct d hr ih =>
      rename_i s
      cases hl : alookup s.children cid with
      | some c => simpa [Sensor.add_child_sensor, hl] using ih
      | none => simpa [Sensor.add_child_sensor, hl, scalarsValid] using ih
  | smart hr ih => exact ih
  | set_desired vcs cid vt v hr ih =>
      rename_i s
      cases hl : alookup s.new_state cid with
      | none => simpa [Sensor.set_child_desired_state, hl] using ih
      | some sc =>
          by_cases hv : vcs cid vt v = true
          · simpa [Sensor.set_child_desired_state, hl, hv, scalarsValid]
              using ih
          · simpa [Sensor.set_child_desired_state, hl, hv] using ih
  | update cid vt v hr heq ih =>
      rename_i s s'
      obtain ⟨c, _, _, _, _, _, hb, hh, hp, _, _, _, _⟩ :=
        update_child_value_eq_ok heq
      unfold scalarsValid
      rw [hb, hh, hp]
      exact ih
  | set_battery v hr heq ih =>
      obtain ⟨hs, h0, h100⟩ := set_battery_level_eq_ok heq
      rw [hs]
      exact ⟨⟨h0, h100⟩, ih.2.1, ih.2.2⟩
  | set_heart v hr heq ih =>
      obtain ⟨hs, h0⟩ := set_heartbeat_eq_ok heq
      rw [hs]
      exact ⟨ih.1, h0, ih.2.2⟩
  | set_version v hr heq ih =>
      obtain ⟨hs, hok⟩ := set_protocol_version_eq_ok heq
      rw [hs]
      exact ⟨ih.1, ih.2.1, hok⟩
  | load hr heq ih =>
      obtain ⟨hs, hbl, hhb, hpv⟩ := setstate_eq_ok heq
      rw [hs]
      exact ⟨hbl, hhb, hpv⟩

theorem reachable_inv {s : Sensor} (h : Reachable s) :
    childKeysMatch s = true ∧ shadowKeysCovered s = true := by
  induction h with
  | init sid => exact ⟨rfl, rfl⟩
  | add cid ct d hr ih =>
      rename_i s
      obtain ⟨hk, hc⟩ := ih
      cases hl : alookup s.children cid with
      | some c => simpa [Sensor.add_child_sensor, hl] using ⟨hk, hc⟩
      | none =>
          simp only [Sensor.add_child_sensor, hl]
          constructor
          · rw [childKeysMatch_iff] at hk ⊢
            intro p hp
            rcases mem_aset _ _ _ p hp with hm | hm
            · exact hk p hm
            · rw [hm]
          · rw [shadowKeysCovered_iff] at hc ⊢
            intro p hp
            exact alookup_aset_isSome _ _ _ _ (hc p hp)
  | smart hr ih =>
      rename_i s
      obtain ⟨hk, hc⟩ := ih
      refine ⟨hk, ?_⟩
      rw [shadowKeysCovered_iff] at hc ⊢
      intro p hp
      rcases smartFold_mem s.children s.new_state p hp with
        ⟨q, hq, hq1⟩ | ⟨q, hq, hq1⟩
      · rw [hq1]
        exact hc q hq
      · rw [hq1, (childKeysMatch_iff s).mp hk q hq]
        exact alookup_isSome_of_mem s.children q hq
  | set_desired vcs cid vt v hr ih =>
      rename_i s
      obtain ⟨hk, hc⟩ := ih
      cases hl : alookup s.new_state cid with
      | none => simpa [Sensor.set_child_desired_state, hl] using ⟨hk, hc⟩
      | some sc =>
          by_cases hv : vcs cid vt v = true
          · simp only [Sensor.set_child_desired_state, hl, hv, if_true]
            refine ⟨hk, ?_⟩
            rw [shadowKeysCovered_iff] at hc ⊢
            intro p hp
            rcases mem_aset _ _ _ p hp with hm | hm
            · exact hc p hm
            · rw [hm]
              exact hc (cid, sc) (alookup_eq_some_mem _ _ _ hl)
          · simpa [Sensor.set_child_desired_state, hl, hv] using ⟨hk, hc⟩
  | update cid vt v hr heq ih =>
      rename_i s s'
      obtain ⟨hk, hc⟩ := ih
      obtain ⟨c, hcl, _, _, _, _, _, _, _, _, _, hch, hns⟩ :=
        update_child_value_eq_ok heq
      constructor
      · rw [childKeysMatch_iff] at hk ⊢
        intro p hp
        rw [hch] at hp
        rcases mem_aset _ _ _ p hp with hm | hm
        · exact hk p hm
        · rw [hm]
          exact hk (cid, c) (alookup_eq_some_mem _ _ _ hcl)
      · rw [shadowKeysCovered_iff] at hc ⊢
        intro p hp
        rw [hch]
        rcases hns with ⟨hn, he⟩ | ⟨sc, hn, he⟩
        · rw [he] at hp
          exact alookup_aset_isSome _ _ _ _ (hc p hp)
        · rw [he] at hp
          rcases mem_aset _ _ _ p hp with hm | hm
          · exact alookup_aset_isSome _ _ _ _ (hc p hm)
          · rw [hm]
            exact alookup_aset_isSome _ _ _ _
              (hc (cid, sc) (alookup_eq_some_mem _ _ _ hn))
  | set_battery v hr heq ih =>
      obtain ⟨hs, _, _⟩ := set_battery_level_eq_ok heq
      rw [hs]
      exact ih
  | set_heart v hr heq ih =>
      obtain ⟨hs, _⟩ := set_heartbeat_eq_ok heq
      rw [hs]
      exact ih
  | set_version v hr heq ih =>
      obtain ⟨hs, _⟩ := set_protocol_version_eq_ok heq
      rw [hs]
      exact ih
  | load hr heq ih =>
      obtain ⟨hs, _, _, _⟩ := setstate_eq_ok heq
      rw [hs]
      exact ⟨ih.1, rfl⟩

theorem alookup_append {α : Type} (l1 l2 : List (Nat × α)) (k : Nat) :
    alookup (l1 ++ l2) k =
      match alookup l1 k with
      | some v => some v
      | none => alookup l2 k := by
  induction l1 with
  | nil => simp [alookup]
  | cons p rest ih =>
      by_cases hp : p.1 = k
      · simp [alookup, hp]
      · simp [alookup, hp, ih]

theorem alookup_map_override {α : Type} (base ext : List (Nat × α)) (k : Nat) :
    alookup (base.map (overrideEntry ext)) k =
      match alookup base k with
      | none => none
      | some v =>
          match alookup ext k with
          | some f => some f
          | none => some v := by
  induction base with
  | nil => simp [alookup]
  | cons p rest ih =>
      cases hq : alookup ext p.1 with
      | some f =>
          by_cases hp : p.1 = k
          · subst hp
            simp [alookup, overrideEntry, hq]
          · simp [alookup, overrideEntry, hq, hp, ih]
      | none =>
          by_cases hp : p.1 = k
          · subst hp
            simp [alookup, overrideEntry, hq]
          · simp [alookup, overrideEntry, hq, hp, ih]

theorem alookup_filter_base {α : Type} (base ext : List (Nat × α)) (k : Nat) :
    alookup (ext.filter (fun p => (alookup base p.1).isNone)) k =
      match alookup base k with
      | some _ => none
      | none => alookup ext k := by
  induction ext with
  | nil =>
      cases alookup base k <;> simp [alookup]
  | cons p rest ih =>
      by_cases hp : p.1 = k
      · subst hp
        cases hb : alookup base p.1 with
        | none => simp [alookup, List.filter_cons, hb]
        | some w => simp [alookup, List.filter_cons, hb, ih]
      · cases hf : (alookup base p.1).isNone with
        | true => simp [alookup, List.filter_cons, hf, hp, ih]
        | false => simp [List.filter_cons, hf, alookup, hp, ih]

theorem alookup_schemaExtend (base ext : List (Nat × (String → Bool)))
    (k : Nat) :
    alookup (schemaExtend base ext) k =
      match alookup ext k with
      | some f => some f
      | none => alookup base k := by
  unfold schemaExtend
  rw [alookup_append]
  simp only [alookup_map_override, alookup_filter_base]
  cases alookup base k <;> cases alookup ext k <;> simp

theorem is_smart_sleep_of_lookup {s : Sensor} {cid : Nat} {sc : ChildSensor}
    (h : alookup s.new_state cid = some sc) :
    s.is_smart_sleep_node = true := by
  unfold Sensor.is_smart_sleep_node
  cases hn : s.new_state with
  | nil => rw [hn] at h; simp [alookup] at h
  | cons a l => rfl

/-- Claim C9: `add_child_sensor` with an already-used child id never raises,
returns nothing and leaves the children mapping unchanged; with an unused id
it inserts a child with that id, type, description and an empty value map,
leaves every other binding alone, and returns the id. -/
theorem C9_add_child_sensor (s : Sensor) (cid ct : Nat) (d : String) :
    ((alookup s.children cid).isSome →
      s.add_child_sensor cid ct d = (none, s)) ∧
    (alookup s.children cid = none →
      s.add_child_sensor cid ct d =
        (some cid,
          { s with children := aset s.children cid ⟨cid, ct, d, []⟩ }) ∧
      alookup ((s.add_child_sensor cid ct d).2).children cid =
        some ⟨cid, ct, d, []⟩ ∧
      ∀ k, k ≠ cid →
        alookup ((s.add_child_sensor cid ct d).2).children k =
          alookup s.children k) := by
  refine ⟨fun h => ?_, fun h => ?_⟩
  · unfold Sensor.add_child_sensor
    cases hl : alookup s.children cid with
    | none => rw [hl] at h; simp at h
    | some c => rfl
  · unfold Sensor.add_child_sensor
    rw [h]
    refine ⟨rfl, ?_, ?_⟩
    · exact alookup_aset_self s.children cid ⟨cid, ct, d, []⟩
    · intro k hk
      exact alookup_aset_ne s.children cid k ⟨cid, ct, d, []⟩ hk

/-- Witness for C9 at a concrete sensor: duplicate insert is a no-op
returning nothing, fresh insert returns the id and stores the child. -/
theorem C9_witness :
    sensorC9.add_child_sensor 1 3 ("other") = (none, sensorC9) ∧
    sensorC9.add_child_sensor 2 3 ("other") =
      (some 2,
        { sensorC9 with children :=
            (aset sensorC9.children 2 ⟨2, 3, "other", []⟩) }) :=
  ⟨(C9_add_child_sensor sensorC9 1 3 ("other")).1 (by rfl),
   ((C9_add_child_sensor sensorC9 2 3 ("other")).2 (by rfl)).1⟩

/-- Claim C5: `set_child_desired_state` raises nothing (it is a total
function) and leaves the sensor entirely unchanged when the child has no
shadow entry or the validation gate rejects the value; when a shadow exists
and validation succeeds it stores the value in the shadow child's value map
and changes nothing else. -/
theorem C5_set_child_desired_state (vcs : Nat → Nat → String → Bool)
    (s : Sensor) (cid vt : Nat) (v : String) :
    (alookup s.new_state cid = none →
      Sensor.set_child_desired_state vcs s cid vt v = s) ∧
    (vcs cid vt v = false →
      Sensor.set_child_desired_state vcs s cid vt v = s) ∧
    (∀ sc, alookup s.new_state cid = some sc → vcs cid vt v = true →
      Sensor.set_child_desired_state vcs s cid vt v =
        { s with new_state :=
            (aset s.new_state cid
              { sc with values := aset sc.values vt (some v) }) }) := by
  refine ⟨fun h => ?_, fun h => ?_, fun sc h1 h2 => ?_⟩
  · unfold Sensor.set_child_desired_state
    rw [h]
  · unfold Sensor.set_child_desired_state
    cases hl : alookup s.new_state cid with
    | none => rfl
    | some sc => simp [h]
  · unfold Sensor.set_child_desired_state
    rw [h1]
    simp [h2]

/-- Witness for C5 at a concrete sensor: rejected on a missing shadow,
rejected on a failing verdict, stored on success. -/
theorem C5_witness :
    Sensor.set_child_desired_state vcsC5 sensorC5 9 0 ("x") = sensorC5 ∧
    Sensor.set_child_desired_state vcsC5 sensorC5 1 0 ("") = sensorC5 ∧
    Sensor.set_child_desired_state vcsC5 sensorC5 1 0 ("x") =
      { sensorC5 with new_state := [(1, ⟨1, 2, "", [(0, some ("x"))]⟩)] } :=
  ⟨(C5_set_child_desired_state vcsC5 sensorC5 9 0 ("x")).1 (by rfl),
   (C5_set_child_desired_state vcsC5 sensorC5 1 0 ("")).2.1 (by rfl),
   (C5_set_child_desired_state vcsC5 sensorC5 1 0 ("x")).2.2
     ⟨1, 2, "", []⟩ (by rfl) (by rfl)⟩

/-- Claim C10: the child schema is the generic custom-sensor table extended
with the sensor-type table, the type-specific validator winning on every key
both tables bind; `validate` checks the supplied value map, defaulting to the
child's current values, against exactly that merged schema. -/
theorem C10_schema_merge (c : ChildSensor) (const : ProtocolConst) (k : Nat)
    (vs : List (Nat × StoredValue)) :
    (alookup (c.get_schema const) k =
      match alookup (typeTable const c.type) k with
      | some f => some f
      | none => alookup (typeTable const const.s_custom) k) ∧
    c.validate const (some vs) = schemaAccepts (c.get_schema const) vs ∧
    c.validate const none = schemaAccepts (c.get_schema const) c.values := by
  refine ⟨?_, rfl, rfl⟩
  unfold ChildSensor.get_schema
  exact alookup_schemaExtend _ _ k

/-- Claim C6: each scalar setter rejects values failing its domain check (no
new sensor state is produced, so the prior valid value is retained) and
stores values passing it; on every reachable sensor the stored scalars
satisfy their validators. -/
theorem C6_scalar_setters (s : Sensor) (i j : Int) (p : String) :
    (¬(0 ≤ i ∧ i ≤ 100) → s.set_battery_level i = Except.error ()) ∧
    ((0 ≤ i ∧ i ≤ 100) →
      s.set_battery_level i = Except.ok { s with battery_level := i }) ∧
    (¬0 ≤ j → s.set_heartbeat j = Except.error ()) ∧
    (0 ≤ j → s.set_heartbeat j = Except.ok { s with heartbeat := j }) ∧
    (version_token_ok p = false →
      s.set_protocol_version p = Except.error ()) ∧
    (version_token_ok p = true →
      s.set_protocol_version p = Except.ok { s with protocol_version := p }) ∧
    (Reachable s → scalarsValid s) := by
  refine ⟨fun h => ?_, fun h => ?_, fun h => ?_, fun h => ?_, fun h => ?_,
    fun h => ?_, reachable_scalarsValid⟩
  · simp [Sensor.set_battery_level, is_battery_level, h, Except.map]
  · simp [Sensor.set_battery_level, is_battery_level, h, Except.map]
  · simp [Sensor.set_heartbeat, is_heartbeat, h, Except.map]
  · simp [Sensor.set_heartbeat, is_heartbeat, h, Except.map]
  · simp [Sensor.set_protocol_version, safe_is_version, h, Except.map]
  · simp [Sensor.set_protocol_version, safe_is_version, h, Except.map]

/-- Witness for C6 at concrete values: out-of-range battery and heartbeat and
a malformed version are rejected, in-range values are stored, and the initial
sensor's scalars are valid. -/
theorem C6_witness :
    (initialSensor 9).set_battery_level 101 = Except.error () ∧
    (initialSensor 9).set_battery_level 50 =
      Except.ok { initialSensor 9 with battery_level := 50 } ∧
    (initialSensor 9).set_heartbeat (-1) = Except.error () ∧
    (initialSensor 9).set_heartbeat 7 =
      Except.ok { initialSensor 9 with heartbeat := 7 } ∧
    (initialSensor 9).set_protocol_version ("x") = Except.error () ∧
    (initialSensor 9).set_protocol_version ("2.0") =
      Except.ok { initialSensor 9 with protocol_version := "2.0" } ∧
    scalarsValid (initialSensor 9) :=
  ⟨(C6_scalar_setters (initialSensor 9) 101 0 ("")).1 (by decide),
   (C6_scalar_setters (initialSensor 9) 50 0 ("")).2.1 (by decide),
   (C6_scalar_setters (initialSensor 9) 0 (-1) ("")).2.2.1 (by decide),
   (C6_scalar_setters (initialSensor 9) 0 7 ("")).2.2.2.1 (by decide),
   (C6_scalar_setters (initialSensor 9) 0 0 ("x")).2.2.2.2.1 (by rfl),
   (C6_scalar_setters (initialSensor 9) 0 0 ("2.0")).2.2.2.2.2.1 (by rfl),
   (C6_scalar_setters (initialSensor 9) 0 0 ("")).2.2.2.2.2.2
     (Reachable.init 9)⟩

/-- Claim C7: on every reachable sensor — reachability covers
`add_child_sensor`, `init_smart_sleep_mode`, `set_child_desired_state`,
`update_child_value`, the scalar setters and a save/load round trip — every
key of the desired-state mapping is also a key of the children mapping. -/
theorem C7_desired_keys (s : Sensor) (h : Reachable s) :
    shadowKeysCovered s = true :=
  (reachable_inv h).2

/-- Witness for C7 at a concrete reachable sensor. -/
theorem C7_witness : shadowKeysCovered sensorC7 = true :=
  C7_desired_keys sensorC7
    (Reachable.smart (Reachable.add 1 2 ("") (Reachable.init 1)))

/-- Counterexample to C2: child 2 is present in `children`, yet
`get_desired_value` raises a lookup error, because the node is in smart-sleep
mode and child 2 has no desired-state shadow entry. -/
theorem C2_counterexample :
    (alookup sensorC2.children 2).isSome = true ∧
    sensorC2.get_desired_value 2 0 = Except.error () :=
  ⟨rfl, rfl⟩

/-- Claim C2 (amended): `get_desired_value` fails with a lookup error exactly
when the child id is absent from `children` or the node is in smart-sleep
mode and the child id is absent from the desired-state mapping; in every
other case it returns without raising. -/
theorem C2_get_desired_value (s : Sensor) (cid vt : Nat) :
    (alookup s.children cid = none →
      s.get_desired_value cid vt = Except.error ()) ∧
    ((alookup s.children cid).isSome → s.is_smart_sleep_node = true →
      alookup s.new_state cid = none →
      s.get_desired_value cid vt = Except.error ()) ∧
    ((alookup s.children cid).isSome →
      (s.is_smart_sleep_node = false ∨ (alookup s.new_state cid).isSome) →
      ∃ r, s.get_desired_value cid vt = Except.ok r) := by
  refine ⟨fun h => ?_, fun h1 h2 h3 => ?_, fun h1 h2 => ?_⟩
  · simp [Sensor.get_desired_value, h]
  · obtain ⟨c, hc⟩ := Option.isSome_iff_exists.mp h1
    simp [Sensor.get_desired_value, hc, h2, h3]
  · obtain ⟨c, hc⟩ := Option.isSome_iff_exists.mp h1
    rcases h2 with h2 | h2
    · exact ⟨vget c.values vt,
        by simp [Sensor.get_desired_value, hc, h2, otruthy]⟩
    · obtain ⟨sc, hsc⟩ := Option.isSome_iff_exists.mp h2
      have hs := is_smart_sleep_of_lookup hsc
      by_cases ht : otruthy (vget sc.values vt) = true
      · exact ⟨vget sc.values vt,
          by simp [Sensor.get_desired_value, hc, hs, hsc, ht]⟩
      · rw [Bool.not_eq_true] at ht
        exact ⟨vget c.values vt,
          by simp [Sensor.get_desired_value, hc, hs, hsc, ht]⟩

/-- Witness for C2 at concrete sensors: error on an unknown child, error on a
known but unshadowed child of a smart-sleep node, success on a shadowed
child. -/
theorem C2_witness :
    sensorC2.get_desired_value 5 0 = Except.error () ∧
    sensorC2.get_desired_value 2 1 = Except.error () ∧
    ∃ r, sensorC2.get_desired_value 1 0 = Except.ok r :=
  ⟨(C2_get_desired_value sensorC2 5 0).1 (by rfl),
   (C2_get_desired_value sensorC2 2 1).2.1 (by rfl) (by rfl) (by rfl),
   (C2_get_desired_value sensorC2 1 0).2.2 (by rfl) (Or.inr (by rfl))⟩

/-- Claim C3: for a child present in both mappings, `get_desired_value`
returns the shadow value when it is truthy and otherwise falls back to the
actual child's value (so a falsy desired value is indistinguishable from an
unset one); on a non-smart-sleep node it always returns the actual child's
value, or nothing if unset. -/
theorem C3_resolution (s : Sensor) (cid vt : Nat) (c : ChildSensor)
    (hc : alookup s.children cid = some c) :
    (∀ sc, alookup s.new_state cid = some sc →
      ((otruthy (vget sc.values vt) = true →
        s.get_desired_value cid vt = Except.ok (vget sc.values vt)) ∧
       (otruthy (vget sc.values vt) = false →
        s.get_desired_value cid vt = Except.ok (vget c.values vt)))) ∧
    (s.is_smart_sleep_node = false →
      s.get_desired_value cid vt = Except.ok (vget c.values vt)) := by
  constructor
  · intro sc hsc
    have hs := is_smart_sleep_of_lookup hsc
    constructor
    · intro ht
      simp [Sensor.get_desired_value, hc, hs, hsc, ht]
    · intro ht
      simp [Sensor.get_desired_value, hc, hs, hsc, ht]
  · intro hs
    simp [Sensor.get_desired_value, hc, hs, otruthy]

/-- Witness for C3 at concrete sensors: truthy shadow wins, falsy shadow
falls back to the actual value, non-smart-sleep reads the actual value. -/
theorem C3_witness :
    sensorC3.get_desired_value 1 0 = Except.ok (some ("d")) ∧
    sensorC3.get_desired_value 2 0 = Except.ok (some ("b")) ∧
    sensorC3b.get_desired_value 1 0 = Except.ok (some ("c")) :=
  ⟨((C3_resolution sensorC3 1 0 ⟨1, 0, "", [(0, some ("a"))]⟩ (by rfl)).1
      ⟨1, 0, "", [(0, some ("d"))]⟩ (by rfl)).1 (by rfl),
   ((C3_resolution sensorC3 2 0 ⟨2, 0, "", [(0, some ("b"))]⟩ (by rfl)).1
      ⟨2, 0, "", [(0, some (""))]⟩ (by rfl)).2 (by rfl),
   (C3_resolution sensorC3b 1 0 ⟨1, 0, "", [(0, some ("c"))]⟩ (by rfl)).2
     (by rfl)⟩

/-- Claim C4: for a child present in `children`, `update_child_value` stores
the new value in the actual child, leaves every other child binding alone,
clears any shadow entry's value for that value type to unset (storing the
literal `None`, whatever desired value was there before), and leaves the
desired-state mapping unchanged when the child has no shadow entry. -/
theorem C4_update_child_value (s : Sensor) (cid vt : Nat) (v : String)
    (h : (alookup s.children cid).isSome) :
    ∃ s', s.update_child_value cid vt v = Except.ok s' ∧
      (∃ c', alookup s'.children cid = some c' ∧
        vget c'.values vt = some v) ∧
      (∀ k, k ≠ cid → alookup s'.children k = alookup s.children k) ∧
      (∀ sc, alookup s.new_state cid = some sc →
        ∃ sc', alookup s'.new_state cid = some sc' ∧
          alookup sc'.values vt = some none ∧
          vget sc'.values vt = none) ∧
      (alookup s.new_state cid = none → s'.new_state = s.new_state) := by
  obtain ⟨c, hc⟩ := Option.isSome_iff_exists.mp h
  cases hn : alookup s.new_state cid with
  | none =>
      refine ⟨{ s with children :=
          (aset s.children cid
            { c with values := aset c.values vt (some v) }) },
        ?_, ?_, ?_, ?_, fun _ => rfl⟩
      · simp [Sensor.update_child_value, hc, hn]
      · refine ⟨{ c with values := aset c.values vt (some v) },
          alookup_aset_self _ _ _, ?_⟩
        simp [vget, alookup_aset_self]
      · intro k hk
        exact alookup_aset_ne _ _ _ _ hk
      · intro sc hsc
        cases hsc
  | some sc0 =>
      refine ⟨{ s with
          children :=
            (aset s.children cid
              { c with values := aset c.values vt (some v) })
          new_state :=
            (aset s.new_state cid
              { sc0 with values := aset sc0.values vt none }) },
        ?_, ?_, ?_, ?_, ?_⟩
      · simp [Sensor.update_child_value, hc, hn]
      · refine ⟨{ c with values := aset c.values vt (some v) },
          alookup_aset_self _ _ _, ?_⟩
        simp [vget, alookup_aset_self]
      · intro k hk
        exact alookup_aset_ne _ _ _ _ hk
      · intro sc hsc
        refine ⟨{ sc0 with values := aset sc0.values vt none },
          alookup_aset_self _ _ _, alookup_aset_self _ _ _, ?_⟩
        simp [vget, alookup_aset_self]
      · intro hcon
        cases hcon

/-- Witness for C4 at a concrete sensor: the actual value is stored and the
pending desired value (different from the arriving one) is cleared. -/
theorem C4_witness :
    ∃ s', sensorC4.update_child_value 1 0 ("y") = Except.ok s' ∧
      (∃ c', alookup s'.children 1 = some c' ∧
        vget c'.values 0 = some ("y")) ∧
      (∀ k, k ≠ 1 → alookup s'.children k = alookup sensorC4.children k) ∧
      (∀ sc, alookup sensorC4.new_state 1 = some sc →
        ∃ sc', alookup s'.new_state 1 = some sc' ∧
          alookup sc'.values 0 = some none ∧
          vget sc'.values 0 = none) ∧
      (alookup sensorC4.new_state 1 = none →
        s'.new_state = sensorC4.new_state) :=
  C4_update_child_value sensorC4 1 0 ("y") (by rfl)

/-- Counterexample to C8: child 1 exists, yet after `init_smart_sleep_mode`
its shadow entry keeps the pending value `[(0, some "x")]` — not an empty
value map as the claim states for every child. -/
theorem C8_counterexample :
    (alookup sensorC8.children 1).isSome = true ∧
    alookup (Sensor.init_smart_sleep_mode sensorC8).new_state 1 =
      some ⟨1, 7, "d", [(0, some ("x"))]⟩ :=
  ⟨rfl, rfl⟩

/-- Claim C8 (amended): after `init_smart_sleep_mode`, every child has a
shadow entry keyed by its id; every child that was not yet shadowed gets a
fresh shadow with the same id, type and description and an empty value map
(provided children are keyed by their own ids without duplicates);
pre-existing shadow entries are left untouched, and the operation is
idempotent. -/
theorem C8_init_smart_sleep (s : Sensor)
    (hk : childKeysMatch s = true)
    (hd : (s.children.map Prod.fst).Nodup) :
    (∀ p ∈ s.children,
      (alookup s.init_smart_sleep_mode.new_state p.2.id).isSome) ∧
    (∀ k, (alookup s.new_state k).isSome →
      alookup s.init_smart_sleep_mode.new_state k = alookup s.new_state k) ∧
    (∀ p ∈ s.children, alookup s.new_state p.2.id = none →
      alookup s.init_smart_sleep_mode.new_state p.2.id =
        some ⟨p.2.id, p.2.type, p.2.description, []⟩) ∧
    s.init_smart_sleep_mode.init_smart_sleep_mode =
      s.init_smart_sleep_mode := by
  refine ⟨?_, ?_, ?_, ?_⟩
  · intro p hp
    exact smartFold_covers s.children s.new_state p hp
  · intro k h
    exact smartFold_preserves s.children s.new_state k h
  · intro p hp hn
    exact smartFold_fresh s.children s.new_state p
      ((childKeysMatch_iff s).mp hk) hd hp hn
  · have hall : ∀ q ∈ s.children,
        (alookup
          (s.children.foldl (fun acc q => smartSleepStep acc q.2)
            s.new_state) q.2.id).isSome :=
      fun q hq => smartFold_covers s.children s.new_state q hq
    show Sensor.init_smart_sleep_mode
        { s with new_state :=
            (s.children.foldl (fun acc q => smartSleepStep acc q.2)
              s.new_state) } = _
    unfold Sensor.init_smart_sleep_mode
    rw [smartFold_id s.children _ hall]

/-- Witness for C8 at a concrete sensor: the unshadowed child 2 gets a fresh
empty shadow, the pre-existing shadow of child 1 is untouched, and a second
`init_smart_sleep_mode` changes nothing. -/
theorem C8_witness :
    alookup (Sensor.init_smart_sleep_mode sensorC8b).new_state 2 =
      some ⟨2, 3, "b", []⟩ ∧
    alookup (Sensor.init_smart_sleep_mode sensorC8b).new_state 1 =
      alookup sensorC8b.new_state 1 ∧
    (Sensor.init_smart_sleep_mode sensorC8b).init_smart_sleep_mode =
      Sensor.init_smart_sleep_mode sensorC8b :=
  ⟨(C8_init_smart_sleep sensorC8b (by rfl) (by decide)).2.2.1
      (2, ⟨2, 3, "b", []⟩) (by decide) (by rfl),
   (C8_init_smart_sleep sensorC8b (by rfl) (by decide)).2.1 1 (by rfl),
   (C8_init_smart_sleep sensorC8b (by rfl) (by decide)).2.2.2⟩

/-- Counterexample to C1: the persisted record produced by `__getstate__`
still contains the pending outbound queue, the needs-reboot flag and the
desired-state mapping. -/
theorem C1_counterexample :
    sensorC1.getstate.queue = [7] ∧
    sensorC1.getstate.reboot = true ∧
    sensorC1.getstate.new_state = [(2, ⟨2, 3, "", []⟩)] :=
  ⟨rfl, rfl, rfl⟩

/-- Claim C1 (amended): the persisted record contains identity, metadata,
children, battery level, heartbeat and protocol version — and also carries
the transient queue, reboot flag and desired-state mapping verbatim; loading
any record (whose scalars its validators accept) yields a sensor whose queue
is empty, reboot flag is false and desired-state mapping is empty, all other
fields taken from the record. -/
theorem C1_persistence (s : Sensor) (st : SavedState) (s' : Sensor)
    (h : setstate st = Except.ok s') :
    (s.getstate.sensor_id = s.sensor_id ∧ s.getstate.children = s.children ∧
     s.getstate.type = s.type ∧ s.getstate.sketch_name = s.sketch_name ∧
     s.getstate.sketch_version = s.sketch_version ∧
     s.getstate.battery_level = s.battery_level ∧
     s.getstate.heartbeat = s.heartbeat ∧
     s.getstate.protocol_version = s.protocol_version ∧
     s.getstate.queue = s.queue ∧ s.getstate.reboot = s.reboot ∧
     s.getstate.new_state = s.new_state) ∧
    (s'.queue = [] ∧ s'.reboot = false ∧ s'.new_state = [] ∧
     s'.sensor_id = st.sensor_id ∧ s'.children = st.children ∧
     s'.type = st.type ∧ s'.sketch_name = st.sketch_name ∧
     s'.sketch_version = st.sketch_version ∧
     s'.battery_level = st.battery_level ∧ s'.heartbeat = st.heartbeat ∧
     s'.protocol_version = st.protocol_version) := by
  obtain ⟨hs, _, _, _⟩ := setstate_eq_ok h
  subst hs
  exact ⟨⟨rfl, rfl, rfl, rfl, rfl, rfl, rfl, rfl, rfl, rfl, rfl⟩,
    ⟨rfl, rfl, rfl, rfl, rfl, rfl, rfl, rfl, rfl, rfl, rfl⟩⟩

/-- Witness for C1: loading the record saved from the concrete fixture
resets the queue, the reboot flag and the desired-state mapping, while the
record itself still carried the queue. -/
theorem C1_witness :
    (initialSensor 1).queue = [] ∧
    (initialSensor 1).reboot = false ∧
    (initialSensor 1).new_state = [] ∧
    sensorC1.getstate.queue = sensorC1.queue := by
  have r := C1_persistence sensorC1 sensorC1.getstate (initialSensor 1)
    (by rfl)
  exact ⟨r.2.1, r.2.2.1, r.2.2.2.1,
    r.1.2.2.2.2.2.2.2.2.1⟩

end PyMySensors
